import Mathlib

/-!
Verification of the fact-memory subsystem of the Aurion proxy (server.js).

The embedding models the `facts` table as created by the server's own
schema (`CREATE TABLE facts (id INTEGER PRIMARY KEY AUTOINCREMENT, q TEXT,
a TEXT, question TEXT, correct_answer TEXT, created_at ...)`), and the
functions `factLookup`, `factUpsert`, `cacheGet` and the `/feedback`
handler as pure state-passing functions.  JS `"str".trim()` is modelled by
`jsTrim`; JS truthiness of a nullable string column (`row?.answer`)
is modelled by `truthy` below; the SQL `ORDER BY id DESC LIMIT 1` row
choice is modelled by `maxIdRow`; `AUTOINCREMENT` id assignment (facts are
never deleted by this code) is modelled by `maxId rows + 1`.
-/

namespace Aurion

/-- Whitespace as stripped by JS `String.prototype.trim` (the ASCII part,
which is all these handlers ever see: space, tab, newline, carriage return,
vertical tab, form feed). -/
def jsWhitespace (c : Char) : Bool :=
  c == ' ' || c == '\t' || c == '\n' || c == '\r' || c == '\x0b' || c == '\x0c'

/-- Leading and trailing whitespace stripped from a character list. -/
def trimChars (l : List Char) : List Char :=
  ((l.dropWhile jsWhitespace).reverse.dropWhile jsWhitespace).reverse

/-- JS `"str".trim()`: strip leading and trailing whitespace; internal
characters (including internal whitespace, case and punctuation) are kept
verbatim. -/
def jsTrim (s : String) : String :=
  ⟨trimChars s.data⟩

/-- One row of the `facts` table.  `q`/`a` are the current columns,
`question`/`correct_answer` the legacy columns kept by the schema; all four
are nullable TEXT, modelled by `Option String`. -/
structure FactRow where
  id : Nat
  q : Option String
  a : Option String
  question : Option String
  correct_answer : Option String
deriving DecidableEq, Repr

/-- JS truthiness of a nullable string field: `row?.col` is truthy exactly
when the row column is present and is not the empty string. -/
def truthy : Option String → Bool
  | none => false
  | some s => s != ""

/-- SQL `WHERE q = ?` against the trimmed question text; NULL never
compares equal. -/
def matchQ (qtxt : String) (r : FactRow) : Bool :=
  r.q == some qtxt

/-- SQL `WHERE question = ?` (legacy column) against the trimmed question
text. -/
def matchQuestion (qtxt : String) (r : FactRow) : Bool :=
  r.question == some qtxt

/-- SQL `ORDER BY id DESC LIMIT 1`: the row with the greatest `id`, if the
selection is nonempty (ids are unique, being the primary key). -/
def maxIdRow : List FactRow → Option FactRow
  | [] => none
  | r :: rs =>
    match maxIdRow rs with
    | none => some r
    | some b => if r.id < b.id then some b else some r

/-- Greatest id present in the table (0 when empty); with `+ 1` this is the
id `AUTOINCREMENT` assigns to the next insert, since this code never
deletes fact rows. -/
def maxId : List FactRow → Nat
  | [] => 0
  | r :: rs => max r.id (maxId rs)

/-- Body of `factLookup` inside the `try`, after the trimmed text `qtxt`
has been computed and found non-empty (server.js lines 390-398): query the
`q`/`a` columns for the newest match, return its answer if truthy,
otherwise fall through to the same query on the legacy
`question`/`correct_answer` columns, otherwise null. -/
def factLookupScan (rows : List FactRow) (qtxt : String) : Option String :=
  if truthy ((maxIdRow (rows.filter (matchQ qtxt))).bind (·.a)) then
    (maxIdRow (rows.filter (matchQ qtxt))).bind (·.a)
  else if truthy ((maxIdRow (rows.filter (matchQuestion qtxt))).bind (·.correct_answer)) then
    (maxIdRow (rows.filter (matchQuestion qtxt))).bind (·.correct_answer)
  else none

/-- The server's `factLookup(question)` (server.js lines 386-403): trim the
question, return null when the trimmed text is empty, otherwise scan the
facts table for the newest exact match on the trimmed text.  It is a pure
read: it never inserts or deletes a fact row. -/
def factLookup (rows : List FactRow) (question : String) : Option String :=
  if jsTrim question == "" then none
  else factLookupScan rows (jsTrim question)

/-- Storage-layer failure (a thrown better-sqlite3 error). -/
structure StorageError where
  message : String
deriving DecidableEq, Repr

/-- The server's `factLookup` with its `try/catch` made explicit: the trim
and the empty check happen before the `try`; every storage error raised
inside the `try` is caught, logged with `console.warn`, and the function
falls to `return null` (server.js lines 389-402). -/
def factLookupTry (dbres : Except StorageError (List FactRow))
    (question : String) : Option String :=
  if jsTrim question == "" then none
  else
    match dbres with
    | .error _ => none
    | .ok rows => factLookupScan rows (jsTrim question)

/-- The server's `factUpsert(q, a)` (server.js lines 404-415): trim both
texts; silently return, inserting nothing, when either trims to empty;
otherwise execute `INSERT INTO facts (q, a) VALUES (?, ?)` — a plain
insert, appending a fresh row with the next `AUTOINCREMENT` id and NULL
legacy columns.  No existing row is updated or deleted. -/
def factUpsert (rows : List FactRow) (q a : String) : List FactRow :=
  if jsTrim q == "" || jsTrim a == "" then rows
  else rows ++ [⟨maxId rows + 1, some (jsTrim q), some (jsTrim a), none, none⟩]

/-- Connection state seen by the `/feedback` handler: the facts table plus
SQLite's `last_insert_rowid()` for this connection — the rowid of the most
recent successful INSERT on any table (0 when none yet). -/
structure DBState where
  facts : List FactRow
  lastInsertRowid : Nat
deriving DecidableEq, Repr

/-- `factUpsert` acting on the connection state: a successful insert also
updates `last_insert_rowid()`; the silent blank-input return leaves the
whole state untouched. -/
def factUpsertDB (st : DBState) (q a : String) : DBState :=
  if jsTrim q == "" || jsTrim a == "" then st
  else
    ⟨st.facts ++ [⟨maxId st.facts + 1, some (jsTrim q), some (jsTrim a), none, none⟩],
     maxId st.facts + 1⟩

/-- HTTP response of `POST /feedback`: 400 with an error message, or 200
with `ok:true` and the id read back from `last_insert_rowid()`. -/
inductive FeedbackResponse where
  | badRequest : String → FeedbackResponse
  | ok : Nat → FeedbackResponse
deriving DecidableEq, Repr

/-- The server's `POST /feedback` handler (server.js lines 613-618): reject
with 400 when `question` or `correct_answer` is missing or JS-falsy (the
empty string); otherwise call `factUpsert` and respond `ok:true` with
whatever `SELECT last_insert_rowid()` returns on this connection. -/
def feedbackHandler (st : DBState) (question correct_answer : Option String) :
    DBState × FeedbackResponse :=
  match question, correct_answer with
  | some q, some a =>
    if q == "" || a == "" then (st, .badRequest "question,correct_answer requis")
    else (factUpsertDB st q a, .ok (factUpsertDB st q a).lastInsertRowid)
  | _, _ => (st, .badRequest "question,correct_answer requis")

/-- One row of the web-search `cache` table (`key` is the primary key, so
keys are unique). -/
structure CacheRow where
  key : String
  answer : String
  created_at : Int
deriving DecidableEq, Repr

/-- Cache time-to-live: 6 hours in milliseconds (server.js line 293). -/
def CACHE_TTL_MS : Int := 6 * 60 * 60 * 1000

/-- The server's `cacheGet(key)` (server.js lines 297-302) with `Date.now()`
passed in as `now`: select the row for `key`; miss when absent; when the
row is older than the TTL, delete that key's row and miss; otherwise hit.
Only the queried key is ever deleted. -/
def cacheGet (rows : List CacheRow) (now : Int) (key : String) :
    List CacheRow × Option String :=
  match rows.find? (fun r => r.key == key) with
  | none => (rows, none)
  | some row =>
    if now - row.created_at > CACHE_TTL_MS then
      (rows.filter (fun r => !(r.key == key)), none)
    else (rows, some row.answer)

/-- Shape of every fact row this code can create: `factUpsert` is the only
writer of `facts`, and it always stores non-empty trimmed text in `q` and
`a` and NULL in the legacy columns. -/
def UpsertShaped (r : FactRow) : Bool :=
  truthy r.q && truthy r.a && r.question == none && r.correct_answer == none

/-- Modelled from the spec: dot product of two embedding vectors (the code
has no embedding machinery at all; spec section 4.1 lookup step 4 is
modelled here over the rationals for the comparison with the code). -/
def dotQ : List ℚ → List ℚ → ℚ
  | [], _ => 0
  | _, [] => 0
  | x :: xs, y :: ys => x * y + dotQ xs ys

/-- Modelled from the spec: `s` is the cosine similarity of `a` and `b`,
`sim(a,b) = (a.b) / (|a| * |b|)`, defined as `0` if either vector has zero
magnitude.  A vector has zero magnitude exactly when its dot product with
itself is `0`; otherwise the positive magnitudes `na`, `nb` satisfy
`na^2 = a.a` and `nb^2 = b.b`, and `s` is determined by
`s * (na * nb) = a.b`. -/
def IsCosineSim (s : ℚ) (a b : List ℚ) : Prop :=
  ((dotQ a a = 0 ∨ dotQ b b = 0) ∧ s = 0) ∨
  (∃ na nb : ℚ, 0 < na ∧ 0 < nb ∧ na ^ 2 = dotQ a a ∧ nb ^ 2 = dotQ b b
    ∧ s * (na * nb) = dotQ a b)

/-- Modelled from the spec: select the Fact with maximum similarity (spec
lookup step 5), given each stored row's similarity score `simf`. -/
def specBest (simf : FactRow → ℚ) : List FactRow → Option FactRow
  | [] => none
  | r :: rs =>
    match specBest simf rs with
    | none => some r
    | some b => if simf r < simf b then some b else some r

/-- Modelled from the spec: the Lookup result the spec describes — no match
when no Facts exist or the maximum similarity is strictly below the
threshold, otherwise the answer of the most-similar Fact. -/
def specLookup (simf : FactRow → ℚ) (threshold : ℚ) (rows : List FactRow) :
    Option String :=
  match specBest simf rows with
  | none => none
  | some r => if simf r < threshold then none else r.a

/-- A table used in concrete instantiations: two rows answering the same
stored question text plus an unrelated one, with the newer matching row in
the middle of the scan order. -/
def rows4 : List FactRow :=
  [⟨1, some "x", some "A1", none, none⟩, ⟨3, some "y", some "B", none, none⟩,
   ⟨2, some "x", some "A2", none, none⟩]

/-- The newest row of `rows4` whose stored question is `"x"`. -/
def row4 : FactRow := ⟨2, some "x", some "A2", none, none⟩

/-- A cache entry written at epoch 0. -/
def staleRow1 : CacheRow := ⟨"k1", "r1", 0⟩

/-- A second cache entry written at epoch 0 under another key. -/
def staleRow2 : CacheRow := ⟨"k2", "r2", 0⟩

/-- A connection state holding one fact row, with `last_insert_rowid()`
still pointing at that earlier insert. -/
def seededState : DBState := ⟨[⟨1, some "x", some "y", none, none⟩], 1⟩

/-- A connection state whose most recent insert (rowid 7) was on some other
table: the facts table only holds row 1. -/
def staleIdState : DBState := ⟨[⟨1, some "x", some "y", none, none⟩], 7⟩

/-- A nullable string column is truthy exactly when it holds a non-empty
string. -/
theorem truthy_iff (o : Option String) : truthy o = true ↔ ∃ s, o = some s ∧ s ≠ "" := by
  cases o <;> simp [truthy]

/-- The row returned by `ORDER BY id DESC LIMIT 1` comes from the selected
list. -/
theorem maxIdRow_mem : ∀ {l : List FactRow} {r : FactRow}, maxIdRow l = some r → r ∈ l := by
  intro l
  induction l with
  | nil => intro r h; simp [maxIdRow] at h
  | cons x xs ih =>
    intro r h
    simp only [maxIdRow] at h
    split at h
    · cases h
      exact List.mem_cons_self _ _
    · rename_i b hb
      split at h
      · cases h
        exact List.mem_cons_of_mem _ (ih hb)
      · cases h
        exact List.mem_cons_self _ _

/-- `ORDER BY id DESC LIMIT 1` returns the row whose id strictly dominates
every other selected row's id. -/
theorem maxIdRow_eq_of_strict {l : List FactRow} {r : FactRow} (hr : r ∈ l)
    (hmax : ∀ r₂ ∈ l, r₂ ≠ r → r₂.id < r.id) : maxIdRow l = some r := by
  induction l with
  | nil => cases hr
  | cons x xs ih =>
    rcases List.mem_cons.mp hr with rfl | hr₂
    · cases hx : maxIdRow xs with
      | none => simp [maxIdRow, hx]
      | some b =>
        have hb : b ∈ xs := maxIdRow_mem hx
        have hnlt : ¬ r.id < b.id := by
          by_cases hbr : b = r
          · subst hbr; exact lt_irrefl _
          · have := hmax b (List.mem_cons_of_mem _ hb) hbr
            omega
        simp [maxIdRow, hx, hnlt]
    · have hx : maxIdRow xs = some r :=
        ih hr₂ (fun r₂ h₂ hne => hmax r₂ (List.mem_cons_of_mem _ h₂) hne)
      by_cases hxe : x = r
      · subst hxe
        simp [maxIdRow, hx]
      · have hlt : x.id < r.id := hmax x (List.mem_cons_self _ _) hxe
        simp [maxIdRow, hx, hlt]

/-- Every id in the table is bounded by `maxId`, so `maxId rows + 1` is
fresh. -/
theorem le_maxId {rows : List FactRow} {r : FactRow} (h : r ∈ rows) : r.id ≤ maxId rows := by
  induction rows with
  | nil => cases h
  | cons x xs ih =>
    rcases List.mem_cons.mp h with rfl | h₂
    · simp [maxId]
    · have := ih h₂
      simp only [maxId]
      omega

/-- On non-blank input, `factUpsert` appends exactly one fresh row holding
the trimmed texts. -/
theorem factUpsert_eq (rows : List FactRow) (q a : String)
    (hq : jsTrim q ≠ "") (ha : jsTrim a ≠ "") :
    factUpsert rows q a
      = rows ++ [⟨maxId rows + 1, some (jsTrim q), some (jsTrim a), none, none⟩] := by
  unfold factUpsert
  rw [if_neg]
  simp [hq, ha]

/-- After a non-blank upsert, looking up any question with the same trimmed
text returns the just-stored trimmed answer: the fresh row matches and its
id strictly dominates every other row of the table. -/
theorem lookup_after_upsert (rows : List FactRow) (q q' a : String)
    (hq : jsTrim q ≠ "") (ha : jsTrim a ≠ "") (hq' : jsTrim q' = jsTrim q) :
    factLookup (factUpsert rows q a) q' = some (jsTrim a) := by
  have hrow := factUpsert_eq rows q a hq ha
  set r0 : FactRow := ⟨maxId rows + 1, some (jsTrim q), some (jsTrim a), none, none⟩ with hr0
  have hmem : r0 ∈ List.filter (matchQ (jsTrim q)) (rows ++ [r0]) := by
    refine List.mem_filter.mpr ⟨List.mem_append_right _ (List.mem_singleton.mpr rfl), ?_⟩
    simp [matchQ, hr0]
  have hstrict : ∀ r₂ ∈ List.filter (matchQ (jsTrim q)) (rows ++ [r0]),
      r₂ ≠ r0 → r₂.id < r0.id := by
    intro r₂ h₂ hne₂
    rcases List.mem_append.mp (List.mem_filter.mp h₂).1 with hin | hin
    · have hle := le_maxId hin
      have hid : r0.id = maxId rows + 1 := by rw [hr0]
      omega
    · exact absurd (List.mem_singleton.mp hin) hne₂
  have hmax := maxIdRow_eq_of_strict hmem hstrict
  simp only [factLookup, hq', hrow]
  rw [if_neg (by simpa using hq)]
  simp only [factLookupScan, hmax]
  simp [truthy, hr0, ha]

/-- On any table whose rows all have the shape `factUpsert` creates (the
only writer of `facts`), `factLookup` is exactly: take the newest row whose
`q` column equals the trimmed question, and return its answer.  The
truthiness test and the legacy-column fallback never fire on such a
table. -/
theorem factLookup_eq_maxQ (rows : List FactRow) (question : String)
    (hwf : ∀ r ∈ rows, UpsertShaped r = true) :
    factLookup rows question
      = (maxIdRow (rows.filter (matchQ (jsTrim question)))).bind (·.a) := by
  by_cases h0 : jsTrim question = ""
  · have hfe : rows.filter (matchQ (jsTrim question)) = [] := by
      refine List.filter_eq_nil_iff.mpr ?_
      intro r hr
      have hw := hwf r hr
      simp only [UpsertShaped, Bool.and_eq_true] at hw
      obtain ⟨s, hs, hsne⟩ := (truthy_iff r.q).mp hw.1.1.1
      simp [matchQ, hs, h0, hsne]
    rw [hfe]
    simp [factLookup, h0, maxIdRow]
  · simp only [factLookup]
    rw [if_neg (by simpa using h0)]
    cases hmax : maxIdRow (rows.filter (matchQ (jsTrim question))) with
    | none =>
      have hfq : rows.filter (matchQuestion (jsTrim question)) = [] := by
        refine List.filter_eq_nil_iff.mpr ?_
        intro r hr
        have hw := hwf r hr
        simp only [UpsertShaped, Bool.and_eq_true] at hw
        have hqn : r.question = none := by simpa using hw.1.2
        simp [matchQuestion, hqn]
      simp [factLookupScan, hmax, hfq, maxIdRow, truthy]
    | some r =>
      have hrmem : r ∈ rows := List.mem_of_mem_filter (maxIdRow_mem hmax)
      have hw := hwf r hrmem
      simp only [UpsertShaped, Bool.and_eq_true] at hw
      have hta : truthy r.a = true := hw.1.1.2
      simp [factLookupScan, hmax, hta]

/-- Blank-after-trim input leaves the whole connection state untouched:
the silent early return of `factUpsert`. -/
theorem factUpsertDB_blank (st : DBState) (q a : String)
    (h : jsTrim q = "" ∨ jsTrim a = "") : factUpsertDB st q a = st := by
  unfold factUpsertDB
  rw [if_pos]
  rcases h with h | h <;> simp [h]

/-- The `/feedback` validation accepts any pair of non-empty strings and
then runs the upsert and answers 200 with `last_insert_rowid()`. -/
theorem feedbackHandler_nonempty (st : DBState) (q a : String)
    (hq : q ≠ "") (ha : a ≠ "") :
    feedbackHandler st (some q) (some a)
      = (factUpsertDB st q a, .ok (factUpsertDB st q a).lastInsertRowid) := by
  unfold feedbackHandler
  have hcond : (q == "" || a == "") = false := by simp [hq, ha]
  simp [hcond]

/-- Claim C1, counterexample: after `Upsert("q","a1")` then `Upsert("q","a2")`
the facts table holds TWO rows whose stored question text is `"q"` — not
exactly one — even though the subsequent lookup does return `"a2"`.  The
code never deduplicates: both calls run a plain INSERT. -/
theorem C1_counterexample :
    (List.filter (matchQ "q") (factUpsert (factUpsert [] "q" "a1") "q" "a2")).length = 2 ∧
    (List.filter (matchQ "q") (factUpsert (factUpsert [] "q" "a1") "q" "a2")).length ≠ 1 ∧
    factLookup (factUpsert (factUpsert [] "q" "a1") "q" "a2") "q" = some "a2" := by
  decide

/-- Claim C1 (amended): upserting twice with the same question appends two
rows keyed by the trimmed question text — the duplicate count grows by two,
there is no unique normalized key — and a subsequent lookup returns the
trimmed second answer because the row with the greatest id wins. -/
theorem C1_theorem (rows : List FactRow) (q a1 a2 : String)
    (hq : jsTrim q ≠ "") (h1 : jsTrim a1 ≠ "") (h2 : jsTrim a2 ≠ "") :
    (List.filter (matchQ (jsTrim q)) (factUpsert (factUpsert rows q a1) q a2)).length
      = (List.filter (matchQ (jsTrim q)) rows).length + 2 ∧
    factLookup (factUpsert (factUpsert rows q a1) q a2) q = some (jsTrim a2) := by
  refine ⟨?_, lookup_after_upsert (factUpsert rows q a1) q q a2 hq h2 rfl⟩
  rw [factUpsert_eq rows q a1 hq h1, factUpsert_eq _ q a2 hq h2]
  simp [List.filter_append, matchQ]

/-- Claim C1, witness: the amended statement at a concrete input. -/
theorem C1_witness :
    (List.filter (matchQ (jsTrim "q")) (factUpsert (factUpsert [] "q" "a1") "q" "a2")).length
      = (List.filter (matchQ (jsTrim "q")) ([] : List FactRow)).length + 2 ∧
    factLookup (factUpsert (factUpsert [] "q" "a1") "q" "a2") "q" = some (jsTrim "a2") :=
  C1_theorem [] "q" "a1" "a2" (by decide) (by decide) (by decide)

/-- Claim C2, counterexample: with the answer `" x "` (non-empty after
trimming), upsert-then-lookup returns the TRIMMED answer `"x"`, not the
answer `" x "` that was passed in, so "returns a match whose answer equals
a" fails as stated. -/
theorem C2_counterexample :
    factLookup (factUpsert [] "q" " x ") "q" = some "x" ∧
    factLookup (factUpsert [] "q" " x ") "q" ≠ some " x " := by
  decide

/-- Claim C2 (amended): for every q, a non-empty after trimming, Upsert(q,a)
then Lookup(q) returns a match whose answer equals the trimmed a.  The
code's lookup takes no threshold parameter at all — it matches by exact
equality of trimmed text — so the "any threshold up to 1.0" clause is
vacuous in the code. -/
theorem C2_theorem (rows : List FactRow) (q a : String)
    (hq : jsTrim q ≠ "") (ha : jsTrim a ≠ "") :
    factLookup (factUpsert rows q a) q = some (jsTrim a) :=
  lookup_after_upsert rows q q a hq ha rfl

/-- Claim C2, witness: the amended round trip at a concrete input. -/
theorem C2_witness :
    factLookup (factUpsert [] "Quelle heure est-il" " 14h ") "Quelle heure est-il"
      = some (jsTrim " 14h ") :=
  C2_theorem [] "Quelle heure est-il" " 14h " (by decide) (by decide)

/-- Claim C3, counterexample: after `Upsert("Qui es-tu ?", "Aurion")`,
`Lookup("qui es tu")` finds nothing — the code has no case folding,
whitespace collapsing or punctuation stripping, only trimming — while the
exact original text still matches. -/
theorem C3_counterexample :
    factLookup (factUpsert [] "Qui es-tu ?" "Aurion") "qui es tu" = none ∧
    factLookup (factUpsert [] "Qui es-tu ?" "Aurion") "Qui es-tu ?" = some "Aurion" := by
  decide

/-- Claim C3 (amended): the only normalization shared by the fact
operations is `trim`; two questions collide exactly when their trimmed
texts are character-for-character equal, so case, punctuation and internal
whitespace are all significant.  (There is no Forget operation in the
code.) -/
theorem C3_theorem (q q' a : String) :
    factLookup (factUpsert [] q a) q' =
      if jsTrim q ≠ "" ∧ jsTrim a ≠ "" ∧ jsTrim q' = jsTrim q
      then some (jsTrim a) else none := by
  by_cases h : jsTrim q ≠ "" ∧ jsTrim a ≠ "" ∧ jsTrim q' = jsTrim q
  · rw [if_pos h]
    exact lookup_after_upsert [] q q' a h.1 h.2.1 h.2.2
  · rw [if_neg h]
    by_cases hq : jsTrim q = ""
    · have hup : factUpsert [] q a = [] := by
        unfold factUpsert
        rw [if_pos]
        simp [hq]
      rw [hup, factLookup_eq_maxQ [] q' (by intro r hr; cases hr)]
      simp [maxIdRow]
    · by_cases hA : jsTrim a = ""
      · have hup : factUpsert [] q a = [] := by
          unfold factUpsert
          rw [if_pos]
          simp [hA]
        rw [hup, factLookup_eq_maxQ [] q' (by intro r hr; cases hr)]
        simp [maxIdRow]
      · have hne : jsTrim q' ≠ jsTrim q := fun hcontra => h ⟨hq, hA, hcontra⟩
        rw [factUpsert_eq [] q a hq hA]
        have hwf : ∀ r ∈ [] ++
            [(⟨maxId [] + 1, some (jsTrim q), some (jsTrim a), none, none⟩ : FactRow)],
            UpsertShaped r = true := by
          intro r hr
          simp only [List.nil_append, List.mem_singleton] at hr
          subst hr
          simp [UpsertShaped, truthy, hq, hA]
        rw [factLookup_eq_maxQ _ q' hwf]
        have hfe : List.filter (matchQ (jsTrim q')) ([] ++
            [(⟨maxId [] + 1, some (jsTrim q), some (jsTrim a), none, none⟩ : FactRow)])
            = [] := by
          simp [matchQ, Ne.symm hne]
        rw [hfe]
        simp [maxIdRow]

/-- Claim C4, counterexample: take the embedding that maps every text to
the vector `[1]`; the cosine similarity of any two such vectors is `1` (the
first conjunct), so with one stored Fact and threshold `0.85` the Lookup
the claim describes must report that Fact for ANY query (second conjunct,
computed on the spec model).  The code reports no match for a query that is
not the exact stored text: it never computes a similarity. -/
theorem C4_counterexample :
    IsCosineSim 1 [1] [1] ∧
    specLookup (fun _ => 1) (85 / 100) (factUpsert [] "Qui es-tu ?" "Aurion")
      = some "Aurion" ∧
    factLookup (factUpsert [] "Qui es-tu ?" "Aurion") "qui es tu" = none := by
  refine ⟨Or.inr ⟨1, 1, one_pos, one_pos, ?_, ?_, ?_⟩, ?_, by decide⟩
  · norm_num [dotQ]
  · norm_num [dotQ]
  · norm_num [dotQ]
  · have h : factUpsert [] "Qui es-tu ?" "Aurion"
        = [⟨1, some "Qui es-tu ?", some "Aurion", none, none⟩] := by decide
    rw [h]
    simp only [specLookup, specBest]
    norm_num

/-- Claim C4 (amended): the selection Lookup performs is not a similarity
maximum but an exact scan: on any table shaped by `factUpsert` (the only
writer), `factLookup` returns the answer of the newest row whose stored
`q` equals the trimmed query, and reports no match exactly when no such row
exists.  No embedding, similarity or threshold is involved. -/
theorem C4_theorem (rows : List FactRow) (question : String)
    (hwf : ∀ r ∈ rows, UpsertShaped r = true) :
    factLookup rows question
      = (maxIdRow (rows.filter (matchQ (jsTrim question)))).bind (·.a) :=
  factLookup_eq_maxQ rows question hwf

/-- Claim C4, witness: the amended scan characterization at a concrete
table. -/
theorem C4_witness :
    factLookup rows4 " x "
      = (maxIdRow (rows4.filter (matchQ (jsTrim " x ")))).bind (·.a) :=
  C4_theorem rows4 " x " (by decide)

/-- Claim C5, counterexample: the only lookup-time TTL deletion in the code
is the web-search cache, and it does not sweep: with two entries both
expired (first conjunct), a lookup of `"k1"` deletes only that key and
leaves the equally expired `"k2"` in storage (second and third conjuncts).
Fact rows have no `ttl_days` column at all and `factLookup` performs no
deletion (it is a pure read of the table in this embedding). -/
theorem C5_counterexample :
    CACHE_TTL_MS + 1 - staleRow2.created_at > CACHE_TTL_MS ∧
    cacheGet [staleRow1, staleRow2] (CACHE_TTL_MS + 1) "k1" = ([staleRow2], none) ∧
    staleRow2 ∈ (cacheGet [staleRow1, staleRow2] (CACHE_TTL_MS + 1) "k1").1 := by
  decide

/-- Claim C5 (amended): lookup-time expiry exists only in the web-search
cache and is per-key: when the queried key's entry is expired, `cacheGet`
misses and deletes exactly the rows under that key, leaving every other
row — expired or not — in place. -/
theorem C5_theorem (rows : List CacheRow) (now : Int) (key : String) (row : CacheRow)
    (hfind : rows.find? (fun r => r.key == key) = some row)
    (hexp : now - row.created_at > CACHE_TTL_MS) :
    (cacheGet rows now key).2 = none ∧
    (∀ r ∈ (cacheGet rows now key).1, r.key ≠ key) ∧
    (∀ r ∈ rows, r.key ≠ key → r ∈ (cacheGet rows now key).1) := by
  simp only [cacheGet, hfind]
  rw [if_pos hexp]
  refine ⟨rfl, ?_, ?_⟩
  · intro r hr
    have hmem := List.mem_filter.mp hr
    simpa using hmem.2
  · intro r hr hne
    exact List.mem_filter.mpr ⟨hr, by simpa using hne⟩

/-- Claim C5, witness: the amended per-key eviction at a concrete cache. -/
theorem C5_witness :
    (cacheGet [staleRow1, staleRow2] (CACHE_TTL_MS + 1) "k1").2 = none ∧
    (∀ r ∈ (cacheGet [staleRow1, staleRow2] (CACHE_TTL_MS + 1) "k1").1, r.key ≠ "k1") ∧
    (∀ r ∈ [staleRow1, staleRow2], r.key ≠ "k1" →
      r ∈ (cacheGet [staleRow1, staleRow2] (CACHE_TTL_MS + 1) "k1").1) :=
  C5_theorem [staleRow1, staleRow2] (CACHE_TTL_MS + 1) "k1" staleRow1 (by decide) (by decide)

/-- Claim C6, counterexample: with a whitespace-only question (empty after
trimming), `factUpsert` silently does nothing — no row is written, no error
is raised — and the `/feedback` boundary even answers 200 `ok:true` instead
of rejecting the input. -/
theorem C6_counterexample :
    factUpsertDB seededState " " "a" = seededState ∧
    feedbackHandler seededState (some " ") (some "a") = (seededState, .ok 1) := by
  decide

/-- Claim C6 (amended): when question or answer is empty after trimming,
Upsert silently does nothing (the state is unchanged and no error exists in
its signature); at the `/feedback` boundary such input — as long as it is
not the entirely empty string, which the falsy check rejects with 400 — is
accepted and answered `ok:true` with the connection's stale
`last_insert_rowid()`. -/
theorem C6_theorem (st : DBState) (q a : String)
    (h : jsTrim q = "" ∨ jsTrim a = "") :
    factUpsertDB st q a = st ∧
    (q ≠ "" → a ≠ "" →
      feedbackHandler st (some q) (some a) = (st, .ok st.lastInsertRowid)) := by
  refine ⟨factUpsertDB_blank st q a h, ?_⟩
  intro hq ha
  rw [feedbackHandler_nonempty st q a hq ha, factUpsertDB_blank st q a h]

/-- Claim C6, witness: the amended statement at a concrete state and
whitespace-only question. -/
theorem C6_witness :
    factUpsertDB seededState " " "a" = seededState ∧
    (" " ≠ "" → "a" ≠ "" →
      feedbackHandler seededState (some " ") (some "a")
        = (seededState, .ok seededState.lastInsertRowid)) :=
  C6_theorem seededState " " "a" (Or.inl (by decide))

/-- Claim C7, counterexample: a storage failure during lookup produces
exactly the same observable result as a miss on an empty table — `null` —
so a caller cannot distinguish "memory unavailable" from "no matching
memory".  The `try/catch` in `factLookup` swallows the error. -/
theorem C7_counterexample :
    factLookupTry (.error ⟨"SQLITE_IOERR: disk I O error"⟩) "Qui es-tu ?" = none ∧
    factLookupTry (.ok []) "Qui es-tu ?" = none := by
  decide

/-- Claim C7 (amended): every storage error raised during the lookup scan
is caught, logged, and converted into the no-match result `null`; nothing
is ever propagated to the caller. -/
theorem C7_theorem (e : StorageError) (question : String) :
    factLookupTry (.error e) question = none := by
  unfold factLookupTry
  split
  · rfl
  · rfl

/-- Claim C9: when several rows carry the queried trimmed text in their
stored `q` column, lookup returns the answer of the matching row with the
greatest id — the most recently inserted matching fact wins (rows written
by this code always have a truthy answer and a non-empty key, reflected in
the two reachability hypotheses). -/
theorem C9_theorem (rows : List FactRow) (question : String) (r : FactRow)
    (hne : jsTrim question ≠ "") (hr : r ∈ rows)
    (hq : r.q = some (jsTrim question)) (ha : truthy r.a = true)
    (hmax : ∀ r₂ ∈ rows, r₂ ≠ r → r₂.q = some (jsTrim question) → r₂.id < r.id) :
    factLookup rows question = r.a := by
  have hfm : r ∈ rows.filter (matchQ (jsTrim question)) :=
    List.mem_filter.mpr ⟨hr, by simp [matchQ, hq]⟩
  have hstrict : ∀ r₂ ∈ rows.filter (matchQ (jsTrim question)), r₂ ≠ r → r₂.id < r.id := by
    intro r₂ h₂ hne₂
    have h₂' := List.mem_filter.mp h₂
    refine hmax r₂ h₂'.1 hne₂ ?_
    simpa [matchQ] using h₂'.2
  have hbest := maxIdRow_eq_of_strict hfm hstrict
  simp only [factLookup]
  rw [if_neg (by simpa using hne)]
  simp [factLookupScan, hbest, ha]

/-- Claim C9, witness: two rows store the question `"x"`; looking up
`" x "` returns the answer of the row with the greater id. -/
theorem C9_witness : factLookup rows4 " x " = row4.a :=
  C9_theorem rows4 " x " row4 (by decide) (by decide) (by decide) (by decide) (by decide)

/-- Claim C10: a question that is non-empty but blank after trimming passes
the falsy-only validation of `/feedback`, the insert is silently skipped by
`factUpsert`, and the endpoint still answers `ok:true` with the
connection's current `last_insert_rowid()` — whatever unrelated insert last
set it. -/
theorem C10_theorem (st : DBState) (q a : String)
    (hq : q ≠ "") (ha : a ≠ "") (hblank : jsTrim q = "" ∨ jsTrim a = "") :
    feedbackHandler st (some q) (some a) = (st, .ok st.lastInsertRowid) := by
  rw [feedbackHandler_nonempty st q a hq ha, factUpsertDB_blank st q a hblank]

/-- Claim C10, witness: on a connection whose last insert was rowid 7 on
some other table, feeding back a whitespace-only question writes nothing
and returns `ok:true` with id 7, which names no fact of this request. -/
theorem C10_witness :
    feedbackHandler staleIdState (some " ") (some "a2")
      = (staleIdState, .ok staleIdState.lastInsertRowid) :=
  C10_theorem staleIdState " " "a2" (by decide) (by decide) (Or.inl (by decide))

end Aurion
